import Mathlib

/-!
Verification of `reqwest-extra` (`src/lib.rs`): a small extension over an
HTTP client that, when a response has a failing status, captures the response
body alongside the error rather than discarding it.

The embedding models the external collaborator (`reqwest`) abstractly:
its error type carries an opaque base message and an optionally associated
URL, and a response carries a status code, a URL, and the outcome that
draining its body stream would produce.  The library's own code
(`ErrorWithBody` and `error_for_status_with_body`) is translated directly
from `src/lib.rs`.
-/

/-- Bytes are modelled as lists of byte values. -/
abbrev Bytes := List Nat

/-- Model of the external HTTP client's error type (reqwest's `Error`):
an opaque base message together with an optionally associated URL, which is
what the URL attach/detach operations and the textual rendering observe. -/
structure ReqwestError where
  msg : String
  url : Option String
deriving DecidableEq

/-- Textual rendering of the external error: its base message, followed by
the associated URL when one is present (reqwest renders it as
" for url (...)"). -/
def ReqwestError.display (e : ReqwestError) : String :=
  match e.url with
  | none => e.msg
  | some u => e.msg ++ " for url (" ++ u ++ ")"

/-- Model of reqwest's `Error::with_url`: records the URL on the error,
overwriting any previously associated URL. -/
def ReqwestError.with_url (e : ReqwestError) (u : String) : ReqwestError :=
  { e with url := some u }

/-- Model of reqwest's `Error::without_url`: strips any associated URL. -/
def ReqwestError.without_url (e : ReqwestError) : ReqwestError :=
  { e with url := none }

/-- Lower-case hexadecimal digit. -/
def hexDigit (n : Nat) : Char :=
  if n < 10 then Char.ofNat (48 + n) else Char.ofNat (87 + n)

/-- Two-digit lower-case hexadecimal rendering of a byte. -/
def hex2 (b : Nat) : String :=
  String.mk [hexDigit (b / 16 % 16), hexDigit (b % 16)]

/-- Debug rendering of a single byte, as the bytes crate renders a byte of a
`Bytes` buffer: named escapes for newline, carriage return, tab, backslash,
double quote and NUL; printable ASCII verbatim; hex escapes otherwise. -/
def byteEscape (b : Nat) : String :=
  if b = 10 then "\\n"
  else if b = 13 then "\\r"
  else if b = 9 then "\\t"
  else if b = 92 then "\\\\"
  else if b = 34 then "\\\""
  else if b = 0 then "\\0"
  else if 32 ≤ b ∧ b < 127 then String.mk [Char.ofNat b]
  else "\\x" ++ hex2 b

/-- Debug rendering of a byte buffer (`{body:?}` on `Bytes`): a byte-string
literal with escape sequences, not UTF-8 decoded. -/
def bytesDebug (bs : Bytes) : String :=
  "b\"" ++ String.join (bs.map byteEscape) ++ "\""

/-- The composite error of `src/lib.rs`: the underlying reqwest error plus
the optional outcome of reading the response body. -/
structure ErrorWithBody where
  inner : ReqwestError
  body : Option (Except ReqwestError Bytes)

/-- `into_inner` from `src/lib.rs`: consume, returning the inner error. -/
def ErrorWithBody.into_inner (e : ErrorWithBody) : ReqwestError :=
  e.inner

/-- `into_body` from `src/lib.rs`: consume, returning the body outcome. -/
def ErrorWithBody.into_body (e : ErrorWithBody) : Option (Except ReqwestError Bytes) :=
  e.body

/-- `into_parts` from `src/lib.rs`: consume, returning both the inner error
and the body outcome as a pair. -/
def ErrorWithBody.into_parts (e : ErrorWithBody) :
    ReqwestError × Option (Except ReqwestError Bytes) :=
  (e.inner, e.body)

/-- `with_url` from `src/lib.rs`: delegates to the inner error's own URL
mechanism, keeping the body. -/
def ErrorWithBody.with_url (e : ErrorWithBody) (u : String) : ErrorWithBody :=
  { inner := e.inner.with_url u, body := e.body }

/-- `without_url` from `src/lib.rs`: delegates to the inner error's own URL
mechanism, keeping the body. -/
def ErrorWithBody.without_url (e : ErrorWithBody) : ErrorWithBody :=
  { inner := e.inner.without_url, body := e.body }

/-- The `Display` impl from `src/lib.rs`: the inner error's rendering,
then ", body: <debug bytes>" when the body was read, ", error reading
body: <secondary error>" when reading it failed, and nothing when absent. -/
def ErrorWithBody.display (e : ErrorWithBody) : String :=
  match e.body with
  | none => e.inner.display
  | some (Except.ok body) => e.inner.display ++ ", body: " ++ bytesDebug body
  | some (Except.error bodyErr) => e.inner.display ++ ", error reading body: " ++ bodyErr.display

/-- The `Error::source` impl from `src/lib.rs`: always exposes the inner
error as the proximate cause. -/
def ErrorWithBody.source (e : ErrorWithBody) : Option ReqwestError :=
  some e.inner

/-- The `From` conversion of `src/lib.rs`: wraps a reqwest error with an
absent body. -/
def ErrorWithBody.fromError (err : ReqwestError) : ErrorWithBody :=
  { inner := err, body := none }

/-- Models writing a new value through the mutable reference returned by
`inner_mut` of `src/lib.rs`. -/
def ErrorWithBody.inner_mut_set (e : ErrorWithBody) (v : ReqwestError) : ErrorWithBody :=
  { e with inner := v }

/-- Models writing a new value through the mutable reference returned by
`body_mut` of `src/lib.rs`; the reference is only available when a body
outcome is present. -/
def ErrorWithBody.body_mut_set (e : ErrorWithBody) (v : Except ReqwestError Bytes) :
    ErrorWithBody :=
  match e.body with
  | none => e
  | some _ => { e with body := some v }

/-- Model of reqwest's `Response`: its status code, its URL, and the outcome
that draining its body stream would produce (the full bytes, or the read
error). -/
structure Response where
  status : Nat
  url : String
  bodyOutcome : Except ReqwestError Bytes

/-- Modelled from the spec: the external client's own error-for-status
classification (reqwest's `error_for_status_ref` is an external collaborator,
not part of this source tree).  The success range is 200–399 inclusive; any
other status yields the client's native status error, carrying the response
URL. -/
def Response.error_for_status_ref (r : Response) : Except ReqwestError Unit :=
  if 200 ≤ r.status ∧ r.status ≤ 399 then Except.ok ()
  else Except.error { msg := "HTTP status error (" ++ toString r.status ++ ")", url := some r.url }

/-- Model of reqwest's `Response::bytes`: drains the body stream, yielding
the full bytes or a read error; modelled as the stored outcome. -/
def Response.bytes (r : Response) : Except ReqwestError Bytes :=
  r.bodyOutcome

/-- `error_for_status_with_body` from `src/lib.rs`: delegate the status check
to the external client; on success return the response itself; on failure
drain the body and pair its outcome with the status error. -/
def Response.error_for_status_with_body (r : Response) : Except ErrorWithBody Response :=
  match r.error_for_status_ref with
  | Except.ok _ => Except.ok r
  | Except.error e => Except.error { inner := e, body := some r.bytes }

/-- Boolean success test on an `Except` outcome. -/
def isOkB {ε α : Type} : Except ε α → Bool
  | Except.ok _ => true
  | Except.error _ => false

/-- Shape of any failure of `error_for_status_with_body`: the body outcome is
exactly the drained body, and the inner error is exactly the status error
the external classification produced. -/
theorem failure_shape (r : Response) (e : ErrorWithBody)
    (h : r.error_for_status_with_body = Except.error e) :
    e.body = some r.bodyOutcome ∧ r.error_for_status_ref = Except.error e.inner := by
  unfold Response.error_for_status_with_body at h
  split at h
  · exact absurd h (by simp)
  · rename_i pe hc
    injection h with h2
    subst h2
    exact ⟨rfl, hc⟩

/-- C1: for every response whose status lies in the success range 200–399,
`error_for_status_with_body` returns `Ok` containing the original response
unchanged (its body outcome intact, hence still fully readable); for any
other status it returns a failure; and the success/failure classification
delegates exactly to the external client's `error_for_status_ref` logic. -/
theorem error_for_status_with_body_delegates (r : Response) :
    isOkB r.error_for_status_with_body = isOkB r.error_for_status_ref
    ∧ (200 ≤ r.status ∧ r.status ≤ 399 → r.error_for_status_with_body = Except.ok r)
    ∧ (¬ (200 ≤ r.status ∧ r.status ≤ 399) →
        isOkB r.error_for_status_with_body = false) := by
  by_cases h : 200 ≤ r.status ∧ r.status ≤ 399 <;>
    simp [Response.error_for_status_with_body, Response.error_for_status_ref, isOkB, h]

/-- C1 witness: a status-200 response is returned unchanged, and a status-403
response is classified as a failure. -/
theorem error_for_status_with_body_delegates_witness :
    (Response.mk 200 "u" (Except.ok [72, 105])).error_for_status_with_body
        = Except.ok (Response.mk 200 "u" (Except.ok [72, 105]))
    ∧ isOkB (Response.mk 403 "u" (Except.ok [72, 105])).error_for_status_with_body = false :=
  ⟨(error_for_status_with_body_delegates (Response.mk 200 "u" (Except.ok [72, 105]))).2.1
      (by decide),
   (error_for_status_with_body_delegates (Response.mk 403 "u" (Except.ok [72, 105]))).2.2
      (by decide)⟩

/-- C2: whenever `error_for_status_with_body` fails, the returned error's
body outcome is present (never absent), and when the body stream is fully
readable the body outcome is `Ok` with exactly the bytes of the response. -/
theorem error_for_status_with_body_body_present (r : Response) (e : ErrorWithBody)
    (h : r.error_for_status_with_body = Except.error e) :
    e.body.isSome = true
    ∧ ∀ bs, r.bodyOutcome = Except.ok bs → e.body = some (Except.ok bs) := by
  obtain ⟨hb, _⟩ := failure_shape r e h
  refine ⟨by simp [hb], ?_⟩
  intro bs hbs
  rw [hb, hbs]

/-- C2 witness: a 404 response with readable body bytes yields an error whose
body outcome holds exactly those bytes. -/
theorem error_for_status_with_body_body_present_witness :
    (ErrorWithBody.mk (ReqwestError.mk ("HTTP status error (" ++ toString 404 ++ ")") (some "u"))
        (some (Except.ok [70, 111]))).body.isSome = true
    ∧ ∀ bs, (Response.mk 404 "u" (Except.ok [70, 111])).bodyOutcome = Except.ok bs →
        (ErrorWithBody.mk (ReqwestError.mk ("HTTP status error (" ++ toString 404 ++ ")") (some "u"))
          (some (Except.ok [70, 111]))).body = some (Except.ok bs) :=
  error_for_status_with_body_body_present (Response.mk 404 "u" (Except.ok [70, 111])) _ rfl

/-- C3: when the status check fails and the body read itself errors, the
returned error stores the secondary read error as its body outcome while the
primary status-derived inner error is still present and unchanged: both are
retained in the one returned value. -/
theorem error_for_status_with_body_preserves_primary (r : Response) (be : ReqwestError)
    (hb : r.bodyOutcome = Except.error be) (e : ErrorWithBody)
    (h : r.error_for_status_with_body = Except.error e) :
    e.body = some (Except.error be)
    ∧ ∃ pe, r.error_for_status_ref = Except.error pe ∧ e.inner = pe := by
  obtain ⟨h1, h2⟩ := failure_shape r e h
  exact ⟨by rw [h1, hb], e.inner, h2, rfl⟩

/-- C3 witness: a 500 response whose body read fails keeps both the status
error and the read error. -/
theorem error_for_status_with_body_preserves_primary_witness :
    (ErrorWithBody.mk (ReqwestError.mk ("HTTP status error (" ++ toString 500 ++ ")") (some "u"))
        (some (Except.error (ReqwestError.mk "connection dropped" none)))).body
      = some (Except.error (ReqwestError.mk "connection dropped" none))
    ∧ ∃ pe, (Response.mk 500 "u"
          (Except.error (ReqwestError.mk "connection dropped" none))).error_for_status_ref
        = Except.error pe
      ∧ (ErrorWithBody.mk (ReqwestError.mk ("HTTP status error (" ++ toString 500 ++ ")") (some "u"))
          (some (Except.error (ReqwestError.mk "connection dropped" none)))).inner = pe :=
  error_for_status_with_body_preserves_primary
    (Response.mk 500 "u" (Except.error (ReqwestError.mk "connection dropped" none)))
    (ReqwestError.mk "connection dropped" none) rfl _ rfl

/-- C4: the rendering of an `ErrorWithBody` is the inner error's own
rendering, followed by ", body: <debug bytes>" when the body outcome is
present and `Ok`, by ", error reading body: <secondary rendering>" when it is
present and `Err`, and by nothing when the body is absent. -/
theorem display_spec (e : ErrorWithBody) :
    (e.body = none → e.display = e.inner.display)
    ∧ (∀ bs, e.body = some (Except.ok bs) →
        e.display = e.inner.display ++ ", body: " ++ bytesDebug bs)
    ∧ (∀ be, e.body = some (Except.error be) →
        e.display = e.inner.display ++ ", error reading body: " ++ be.display) := by
  refine ⟨?_, ?_, ?_⟩
  · intro h
    simp [ErrorWithBody.display, h]
  · intro bs h
    simp [ErrorWithBody.display, h]
  · intro be h
    simp [ErrorWithBody.display, h]

/-- C4 witness: the three rendering shapes at concrete values, including the
escaped, non-UTF-8-decoded byte-string form of the body. -/
theorem display_spec_witness :
    (ErrorWithBody.mk (ReqwestError.mk "err" none) none).display
        = (ReqwestError.mk "err" none).display
    ∧ (ErrorWithBody.mk (ReqwestError.mk "err" none) (some (Except.ok [70, 13, 10]))).display
        = (ReqwestError.mk "err" none).display ++ ", body: " ++ bytesDebug [70, 13, 10]
    ∧ (ErrorWithBody.mk (ReqwestError.mk "err" none)
          (some (Except.error (ReqwestError.mk "read failed" none)))).display
        = (ReqwestError.mk "err" none).display ++ ", error reading body: "
            ++ (ReqwestError.mk "read failed" none).display :=
  ⟨(display_spec (ErrorWithBody.mk (ReqwestError.mk "err" none) none)).1 rfl,
   (display_spec (ErrorWithBody.mk (ReqwestError.mk "err" none)
      (some (Except.ok [70, 13, 10])))).2.1 [70, 13, 10] rfl,
   (display_spec (ErrorWithBody.mk (ReqwestError.mk "err" none)
      (some (Except.error (ReqwestError.mk "read failed" none))))).2.2
      (ReqwestError.mk "read failed" none) rfl⟩

/-- C5: the `From` conversion wraps any underlying error into an
`ErrorWithBody` with that inner error and an absent body; conversely every
error originating from `error_for_status_with_body` has a present body, so an
absent body only arises outside that operation. -/
theorem fromError_spec (err : ReqwestError) :
    ((ErrorWithBody.fromError err).inner = err
      ∧ (ErrorWithBody.fromError err).body = none)
    ∧ ∀ (r : Response) (e : ErrorWithBody),
        r.error_for_status_with_body = Except.error e → e.body ≠ none := by
  refine ⟨⟨rfl, rfl⟩, ?_⟩
  intro r e h
  obtain ⟨hb, _⟩ := failure_shape r e h
  simp [hb]

/-- C5 witness: the conversion at a concrete error, and a concrete
status-check failure whose body is present. -/
theorem fromError_spec_witness :
    ((ErrorWithBody.fromError (ReqwestError.mk "timeout" none)).inner
        = ReqwestError.mk "timeout" none
      ∧ (ErrorWithBody.fromError (ReqwestError.mk "timeout" none)).body = none)
    ∧ (ErrorWithBody.mk (ReqwestError.mk ("HTTP status error (" ++ toString 404 ++ ")") (some "u"))
        (some (Except.ok [65]))).body ≠ none :=
  ⟨(fromError_spec (ReqwestError.mk "timeout" none)).1,
   (fromError_spec (ReqwestError.mk "timeout" none)).2
      (Response.mk 404 "u" (Except.ok [65])) _ rfl⟩

/-- Rendering re-derived from an (inner, body) pair, following the spec's
round-trip wording for the pair-extractor. -/
def displayParts (inner : ReqwestError) (body : Option (Except ReqwestError Bytes)) : String :=
  match body with
  | none => inner.display
  | some (Except.ok b) => inner.display ++ ", body: " ++ bytesDebug b
  | some (Except.error be) => inner.display ++ ", error reading body: " ++ be.display

/-- C6: extracting the two parts via `into_parts` and re-deriving the
rendered text from that pair yields exactly the original value's own
rendering: the rendering is a pure function of the two fields alone. -/
theorem into_parts_display_roundtrip (e : ErrorWithBody) :
    displayParts e.into_parts.1 e.into_parts.2 = e.display := by
  cases e with
  | mk inner body => rfl

/-- C7: attaching a URL and then stripping it renders identically to just
stripping the URL: attach/detach is a true inverse pair with respect to the
underlying error's URL field. -/
theorem with_url_without_url_display (e : ErrorWithBody) (u : String) :
    ((e.with_url u).without_url).display = (e.without_url).display := by
  cases e with
  | mk inner body =>
      cases inner with
      | mk msg url => rfl

/-- C8: `with_url` and `without_url` leave the body field unchanged, and
change the inner error exactly by delegating to the underlying error's own
URL-association mechanism. -/
theorem url_ops_frame (e : ErrorWithBody) (u : String) :
    (e.with_url u).body = e.body
    ∧ (e.without_url).body = e.body
    ∧ (e.with_url u).inner = e.inner.with_url u
    ∧ (e.without_url).inner = e.inner.without_url :=
  ⟨rfl, rfl, rfl, rfl⟩

/-- C9 counterexample: writing through the mutable reference exposed by
`inner_mut` is a public operation other than the URL attach/detach pair, and
it changes the `inner` field of a constructed value. -/
theorem mut_accessor_changes_inner :
    ((ErrorWithBody.mk (ReqwestError.mk "original" none) none).inner_mut_set
        (ReqwestError.mk "replaced" none)).inner
      ≠ (ErrorWithBody.mk (ReqwestError.mk "original" none) none).inner := by
  decide

/-- C9 (amended): `inner` and `body` are immutable through the public
interface except via the URL attach/detach transformations and via the
mutable references exposed by `inner_mut` and `body_mut`: the read accessors
and consuming extractors return the fields unmodified, the URL operations
keep the body and touch the inner error only through its own URL mechanism,
and field replacement is possible exactly through the two mutable
accessors. -/
theorem immutability_amended (e : ErrorWithBody) (u : String) (v : ReqwestError)
    (w : Except ReqwestError Bytes) :
    e.into_inner = e.inner
    ∧ e.into_body = e.body
    ∧ e.into_parts = (e.inner, e.body)
    ∧ (e.with_url u).body = e.body
    ∧ (e.without_url).body = e.body
    ∧ (e.with_url u).inner.msg = e.inner.msg
    ∧ (e.without_url).inner.msg = e.inner.msg
    ∧ (e.inner_mut_set v).inner = v
    ∧ (e.inner_mut_set v).body = e.body
    ∧ (e.body_mut_set w).inner = e.inner :=
  ⟨rfl, rfl, rfl, rfl, rfl, rfl, rfl, rfl, rfl, by
    cases e with
    | mk inner body =>
        cases body <;> rfl⟩

/-- C10: the causal-chain accessor always returns the inner underlying error,
never nothing, so cause-chain walking reaches the underlying HTTP error. -/
theorem source_spec (e : ErrorWithBody) :
    e.source = some e.inner ∧ (e.source).isSome = true :=
  ⟨rfl, rfl⟩
